import Mathlib

/-!
Shallow embedding of the order-execution and position-accounting engine of
the SorooshX exchange backend (source files
`backend/apps/trading/services.py` and `backend/apps/trading/models.py`).

Modelling conventions:
* Python `Decimal` arithmetic is modelled by exact rationals (`ℚ`).
* The single-account slice of the database (one `MockWallet` plus the
  account's orders, positions and trades) is an explicit `EngineState`.
  Django's `save()` of a fetched row is modelled as an update of the list
  entry with the matching primary key, and `objects.create` as an append
  with a fresh numeric id.  Accounts never share wallet state in the
  source, so one account suffices.
* `@transaction.atomic` is modelled by `Except`: an operation either
  returns the committed successor state or an error, and an error leaves
  the state untouched (the source raises before mutating, and the atomic
  decorator rolls back any partial work).
* Timestamps (`filled_at`, `cancelled_at`, `closed_at`) and the
  `symbol.upper()` normalisation are not modelled; symbols are taken as
  already-normalised strings.
* Python truthiness of `Decimal` (zero and `None` are falsy) is modelled
  explicitly where the source relies on it (`py_price_arg`, `py_or`).
* The mixed `int`/`float`/`Decimal` expression the source uses for
  liquidation prices is modelled twice: by its intended exact value, and
  by a small model of the Python numeric tower (`PyVal`) that records the
  `TypeError` the source expression actually raises.  Accordingly the fill
  pipeline exists at two levels: `create_position` / `add_to_position` /
  `execute_order` / `create_order` are the intended-arithmetic engine (the
  type fault read as its intended value, for claims about the arithmetic
  the lines encode), while `create_position_py` / `add_to_position_py` /
  `execute_order_py` / `create_order_py` are the faithful runtime model,
  in which any branch that evaluates the liquidation-price expression
  aborts with `type_error` and commits nothing.  Claims about what the
  program actually commits are settled against the `_py` level.
* `ValueError` exceptions are distinguished by their role, following the
  spec's taxonomy (`insufficient_margin`, `invalid_state`,
  `validation_error`, `not_found`).
-/

namespace SorooshX

/-- Order.Side from `models.py` (`buy`, `sell`). -/
inductive Side
| buy
| sell
deriving DecidableEq

/-- Position.Side from `models.py` (`long`, `short`). -/
inductive PosSide
| long
| short
deriving DecidableEq

/-- Order.Type from `models.py`. -/
inductive OrderType
| limit
| market
| stop_limit
| stop_market
| take_profit
| stop_loss
deriving DecidableEq

/-- Order.Status from `models.py`.  The source's `OPEN` is rendered
`opened` (keyword clash) and `PARTIALLY_FILLED` is rendered `part_filled`. -/
inductive OrderStatus
| pending
| opened
| part_filled
| filled
| cancelled
| rejected
deriving DecidableEq

/-- Order.MarginMode / Position.MarginMode from `models.py`. -/
inductive MarginMode
| cross
| isolated
deriving DecidableEq

/-- Error taxonomy of the engine's failure modes: the `ValueError` raises
named by role as in the spec (section 7), plus `type_error` for the
unhandled Python `TypeError` of the liquidation-price expression, which
aborts the enclosing atomic transaction. -/
inductive EngineError
| insufficient_margin
| invalid_state
| validation_error
| not_found
| type_error
deriving DecidableEq

/-- MockWallet from `models.py`: total balance and available balance. -/
structure Wallet where
  balance : ℚ
  available_balance : ℚ
deriving DecidableEq

/-- Order row from `models.py` (fields relevant to the engine logic). -/
structure Order where
  id : ℕ
  symbol : String
  side : Side
  order_type : OrderType
  price : Option ℚ
  stop_price : Option ℚ
  quantity : ℚ
  leverage : ℕ
  margin_mode : MarginMode
  margin_used : ℚ
  status : OrderStatus
  filled_quantity : ℚ
  average_price : Option ℚ
  commission : ℚ
deriving DecidableEq

/-- Position row from `models.py` (fields relevant to the engine logic). -/
structure Position where
  id : ℕ
  symbol : String
  side : PosSide
  quantity : ℚ
  entry_price : ℚ
  leverage : ℕ
  margin_mode : MarginMode
  margin : ℚ
  liquidation_price : ℚ
  realized_pnl : ℚ
  is_open : Bool
deriving DecidableEq

/-- Trade row from `models.py`.  `order_ref` and `position_ref` are the
nullable foreign keys; `realized_pnl` defaults to 0 when not passed to
`Trade.objects.create`. -/
structure Trade where
  id : ℕ
  order_ref : Option ℕ
  position_ref : Option ℕ
  symbol : String
  side : Side
  price : ℚ
  quantity : ℚ
  commission : ℚ
  realized_pnl : ℚ
deriving DecidableEq

/-- The single-account database slice the engine mutates. -/
structure EngineState where
  wallet : Wallet
  orders : List Order
  positions : List Position
  trades : List Trade
  next_order_id : ℕ
  next_position_id : ℕ
  next_trade_id : ℕ
deriving DecidableEq

/-- Order.is_active property from `models.py`: status is one of
pending / open / partially filled. -/
def Order.is_active (o : Order) : Bool :=
  o.status == OrderStatus.pending || o.status == OrderStatus.opened ||
    o.status == OrderStatus.part_filled

/-- TradingService.TAKER_FEE = Decimal('0.0004'). -/
def TAKER_FEE : ℚ := 4 / 10000

/-- TradingService.MAKER_FEE = Decimal('0.0002'); defined in the source but
never applied (every fill uses the taker rate). -/
def MAKER_FEE : ℚ := 2 / 10000

/-- Line 34 of `services.py`:
`price = Decimal(str(data.get('price', 0))) if data.get('price') else None`.
A missing price or a price of 0 (falsy `Decimal`) both yield `None`. -/
def py_price_arg : Option ℚ → Option ℚ
| some p => if p = 0 then none else some p
| none => none

/-- Python `x or default` on an optional `Decimal`: `None` and 0 are falsy
and select the default (used at lines 267-268 of `services.py`). -/
def py_or (v : Option ℚ) (default : ℚ) : ℚ :=
  match v with
  | some x => if x = 0 then default else x
  | none => default

/-- An order-creation request: the validated `data` dict handed to
`TradingService.create_order`. -/
structure OrderReq where
  symbol : String
  side : Side
  order_type : OrderType
  price : Option ℚ
  stop_price : Option ℚ
  quantity : ℚ
  leverage : ℕ
  margin_mode : MarginMode
deriving DecidableEq

/-- Lines 41-43 of `services.py`: the margin a request reserves,
`quantity * execution_price / leverage` where the execution price is the
(truthy) limit price if given, else the mock reference price 95000. -/
def required_margin_for (req : OrderReq) : ℚ :=
  req.quantity * ((py_price_arg req.price).getD 95000) / (req.leverage : ℚ)

/-- TradingService._create_position (lines 140-162) under the
intended-arithmetic reading: builds the new position row with the
liquidation-price expression read as its intended exact value.  As Python
executes it the expression raises `TypeError` and nothing is created; that
faithful behaviour is `create_position_py`. -/
def create_position (order : Order) (execution_price : ℚ) (side : PosSide)
    (pid : ℕ) : Position :=
  let notional_value := order.quantity * execution_price
  let margin := notional_value / (order.leverage : ℚ)
  let liquidation_price :=
    if side = PosSide.long then
      execution_price * (1 - (1 / (order.leverage : ℚ)) * (9 / 10))
    else
      execution_price * (1 + (1 / (order.leverage : ℚ)) * (9 / 10))
  { id := pid, symbol := order.symbol, side := side,
    quantity := order.quantity, entry_price := execution_price,
    leverage := order.leverage, margin_mode := order.margin_mode,
    margin := margin, liquidation_price := liquidation_price,
    realized_pnl := 0, is_open := true }

/-- TradingService._add_to_position (lines 164-183) under the
intended-arithmetic reading: volume-weighted entry price, summed quantity
and margin, recomputed liquidation price.  As Python executes it the
liquidation-price expression raises `TypeError` and nothing is saved; that
faithful behaviour is `add_to_position_py`. -/
def add_to_position (position : Position) (order : Order)
    (execution_price : ℚ) : Position :=
  let total_value := position.entry_price * position.quantity +
    execution_price * order.quantity
  let new_quantity := position.quantity + order.quantity
  let new_entry_price := total_value / new_quantity
  let liquidation_price :=
    if position.side = PosSide.long then
      new_entry_price * (1 - (1 / (position.leverage : ℚ)) * (9 / 10))
    else
      new_entry_price * (1 + (1 / (position.leverage : ℚ)) * (9 / 10))
  { position with
    quantity := new_quantity, entry_price := new_entry_price,
    margin := position.margin + order.margin_used,
    liquidation_price := liquidation_price }

/-- Lines 191-194 of `services.py`: P&L realized when an opposite-side
order reduces a position. -/
def reduce_pnl (position : Position) (order : Order)
    (execution_price : ℚ) : ℚ :=
  if position.side = PosSide.long then
    (execution_price - position.entry_price) * min order.quantity position.quantity
  else
    (position.entry_price - execution_price) * min order.quantity position.quantity

/-- TradingService._reduce_position (lines 186-215): returns the updated
position row and the updated wallet.  Note the full-close branch does not
reset `quantity`, and the wallet receives the P&L, the released position
margin, and the reducing order's own reserved margin. -/
def reduce_position (position : Position) (order : Order)
    (execution_price : ℚ) (wallet : Wallet) : Position × Wallet :=
  let pnl := reduce_pnl position order execution_price
  let pr : Position × ℚ :=
    if position.quantity ≤ order.quantity then
      ({ position with
          realized_pnl := position.realized_pnl + pnl,
          is_open := false }, position.margin)
    else
      let close_ratio := order.quantity / position.quantity
      let released_margin := position.margin * close_ratio
      ({ position with
          quantity := position.quantity - order.quantity,
          margin := position.margin - released_margin,
          realized_pnl := position.realized_pnl + pnl }, released_margin)
  (pr.1,
   { balance := wallet.balance + pnl + pr.2,
     available_balance :=
       wallet.available_balance + pnl + pr.2 + order.margin_used })

/-- Lines 276-279 of `services.py`: P&L realized by an explicit close. -/
def close_pnl (position : Position) (close_price close_quantity : ℚ) : ℚ :=
  if position.side = PosSide.long then
    (close_price - position.entry_price) * close_quantity
  else
    (position.entry_price - close_price) * close_quantity

/-- Lines 297-311 of `services.py`: the full/partial close arithmetic of
`close_position`, returning the updated position row and the released
margin.  The full-close branch here does reset `quantity` to 0. -/
def close_position_calc (position : Position) (pnl close_quantity : ℚ) :
    Position × ℚ :=
  if position.quantity ≤ close_quantity then
    ({ position with
        realized_pnl := position.realized_pnl + pnl,
        quantity := 0, is_open := false }, position.margin)
  else
    let close_ratio := close_quantity / position.quantity
    let released_margin := position.margin * close_ratio
    ({ position with
        quantity := position.quantity - close_quantity,
        margin := position.margin - released_margin,
        realized_pnl := position.realized_pnl + pnl }, released_margin)

/-- Lines 90-99 of `services.py`: the filled version of an order
(`status=FILLED`, full fill at the execution price, taker commission). -/
def filled_order (order : Order) (execution_price : ℚ) : Order :=
  { order with
    status := OrderStatus.filled,
    filled_quantity := order.quantity,
    average_price := some execution_price,
    commission := order.quantity * execution_price * TAKER_FEE }

/-- Lines 123-133 of `services.py`: the trade record written by a fill.
Its position reference is the open position found for the symbol before
the position step runs (so `none` on the position-creation path), and its
`realized_pnl` takes the model default 0. -/
def fill_trade (s : EngineState) (order : Order)
    (execution_price : ℚ) : Trade :=
  { id := s.next_trade_id, order_ref := some order.id,
    position_ref := Option.map (fun p => p.id)
      (s.positions.find? (fun p => p.symbol == order.symbol && p.is_open)),
    symbol := order.symbol, side := order.side, price := execution_price,
    quantity := order.quantity,
    commission := order.quantity * execution_price * TAKER_FEE,
    realized_pnl := 0 }

/-- TradingService._execute_order (lines 82-138) under the
intended-arithmetic reading: fill the order at the given price, update or
create the matching position, record a trade that references the position
found before the position step, and deduct the commission from both wallet
balances.  The source looks the position up after saving the order row;
saving an order cannot change the positions table, so the lookup reads
`s.positions` here.  The faithful runtime model, in which the
position-creation and same-side-addition branches abort with the
liquidation-price `TypeError`, is `execute_order_py`. -/
def execute_order (s : EngineState) (order : Order)
    (execution_price : ℚ) : EngineState :=
  let commission := order.quantity * execution_price * TAKER_FEE
  let filled : Order := filled_order order execution_price
  let s1 : EngineState :=
    { s with orders := s.orders.map (fun o => if o.id = order.id then filled else o) }
  let position_side := if order.side = Side.buy then PosSide.long else PosSide.short
  let existing_position :=
    s.positions.find? (fun p => p.symbol == order.symbol && p.is_open)
  let s2 : EngineState :=
    match existing_position with
    | some position =>
      if (position.side = PosSide.long ∧ order.side = Side.buy) ∨
         (position.side = PosSide.short ∧ order.side = Side.sell) then
        { s1 with positions := s1.positions.map (fun p =>
            if p.id = position.id then add_to_position position filled execution_price
            else p) }
      else
        let rw := reduce_position position filled execution_price s1.wallet
        { s1 with
          positions := s1.positions.map (fun p =>
            if p.id = position.id then rw.1 else p),
          wallet := rw.2 }
    | none =>
      { s1 with
        positions := s1.positions ++
          [create_position filled execution_price position_side s1.next_position_id],
        next_position_id := s1.next_position_id + 1 }
  let trade : Trade :=
    { id := s2.next_trade_id, order_ref := some order.id,
      position_ref := Option.map (fun p => p.id) existing_position,
      symbol := order.symbol, side := order.side, price := execution_price,
      quantity := order.quantity, commission := commission, realized_pnl := 0 }
  let s3 : EngineState :=
    { s2 with trades := s2.trades ++ [trade], next_trade_id := s2.next_trade_id + 1 }
  { s3 with wallet :=
      { balance := s3.wallet.balance - commission,
        available_balance := s3.wallet.available_balance - commission } }

/-- Lines 52-65 of `services.py`: the order row created by a submission,
with `status=PENDING` and the computed `margin_used`. -/
def new_order (s : EngineState) (req : OrderReq) : Order :=
  { id := s.next_order_id, symbol := req.symbol, side := req.side,
    order_type := req.order_type, price := py_price_arg req.price,
    stop_price := req.stop_price, quantity := req.quantity,
    leverage := req.leverage, margin_mode := req.margin_mode,
    margin_used := required_margin_for req, status := OrderStatus.pending,
    filled_quantity := 0, average_price := none, commission := 0 }

/-- Lines 52-69 of `services.py`: the state after the order row is created
and its margin reserved out of the available balance. -/
def reserve_state (s : EngineState) (req : OrderReq) : EngineState :=
  { s with
    orders := s.orders ++ [new_order s req],
    next_order_id := s.next_order_id + 1,
    wallet := { s.wallet with
      available_balance :=
        s.wallet.available_balance - required_margin_for req } }

/-- TradingService.create_order (lines 19-80) under the
intended-arithmetic reading: fail with insufficient margin when the
available balance is below the required margin (line 46), otherwise create
the order and reserve its margin, then either execute immediately (market
orders) or park the order as `OPEN` (all other types).  The faithful
runtime model of the same lines is `create_order_py`. -/
def create_order (s : EngineState) (req : OrderReq) :
    Except EngineError EngineState :=
  if s.wallet.available_balance < required_margin_for req then
    Except.error EngineError.insufficient_margin
  else
    let order := new_order s req
    let s1 := reserve_state s req
    if req.order_type = OrderType.market then
      Except.ok (execute_order s1 order ((py_price_arg req.price).getD 95000))
    else
      Except.ok { s1 with orders := s1.orders.map (fun o =>
        if o.id = order.id then { o with status := OrderStatus.opened } else o) }

/-- TradingService.cancel_order (lines 217-235): reject inactive orders,
else release the reserved margin and mark the order cancelled. -/
def cancel_order (s : EngineState) (oid : ℕ) :
    Except EngineError EngineState :=
  match s.orders.find? (fun o => o.id == oid) with
  | none => Except.error EngineError.not_found
  | some order =>
    if order.is_active then
      Except.ok { s with
        wallet := { s.wallet with
          available_balance := s.wallet.available_balance + order.margin_used },
        orders := s.orders.map (fun o =>
          if o.id = oid then { o with status := OrderStatus.cancelled } else o) }
    else
      Except.error EngineError.invalid_state

/-- TradingService.close_position (lines 259-320): reject closed positions,
default a falsy price/quantity, reject oversized quantities, record the
closing trade carrying the realized P&L, apply the close arithmetic, and
credit net P&L plus released margin to both wallet balances. -/
def close_position (s : EngineState) (pid : ℕ)
    (price quantity : Option ℚ) : Except EngineError EngineState :=
  match s.positions.find? (fun p => p.id == pid) with
  | none => Except.error EngineError.not_found
  | some position =>
    if position.is_open then
      let close_price := py_or price 95000
      let close_quantity := py_or quantity position.quantity
      if position.quantity < close_quantity then
        Except.error EngineError.validation_error
      else
        let pnl := close_pnl position close_price close_quantity
        let commission := close_quantity * close_price * TAKER_FEE
        let trade : Trade :=
          { id := s.next_trade_id, order_ref := none,
            position_ref := some position.id, symbol := position.symbol,
            side := if position.side = PosSide.long then Side.sell else Side.buy,
            price := close_price, quantity := close_quantity,
            commission := commission, realized_pnl := pnl }
        let pr := close_position_calc position pnl close_quantity
        let net_pnl := pnl - commission
        Except.ok { s with
          positions := s.positions.map (fun p =>
            if p.id = position.id then pr.1 else p),
          trades := s.trades ++ [trade],
          next_trade_id := s.next_trade_id + 1,
          wallet :=
            { balance := s.wallet.balance + net_pnl + pr.2,
              available_balance :=
                s.wallet.available_balance + net_pnl + pr.2 } }
    else
      Except.error EngineError.invalid_state

/-- Fresh account state: MockWallet defaults to 10000 / 10000 USDT and no
orders, positions or trades exist. -/
def initial_state : EngineState :=
  { wallet := { balance := 10000, available_balance := 10000 },
    orders := [], positions := [], trades := [],
    next_order_id := 0, next_position_id := 0, next_trade_id := 0 }

/-- Total margin currently reserved by active orders. -/
def reserved_margin (l : List Order) : ℚ :=
  (l.map (fun o => if o.is_active then o.margin_used else 0)).sum

instance {ε α : Type} [DecidableEq ε] [DecidableEq α] :
    DecidableEq (Except ε α)
| Except.ok a, Except.ok b =>
    decidable_of_iff (a = b) (by simp)
| Except.error a, Except.error b =>
    decidable_of_iff (a = b) (by simp)
| Except.ok _, Except.error _ => isFalse (by simp)
| Except.error _, Except.ok _ => isFalse (by simp)

/-- Committed-state extractor for building concrete scenarios. -/
def ok_state (r : Except EngineError EngineState)
    (fallback : EngineState) : EngineState :=
  match r with
  | Except.ok s => s
  | Except.error _ => fallback

/-- A value of Python's numeric tower as it appears in the liquidation
price expression of `services.py`: an `int`, a `float`, or a `Decimal`
(numeric content idealised as an exact rational; only the runtime type
matters here). -/
inductive PyVal
| pint (n : ℤ)
| pfloat (x : ℚ)
| pdec (x : ℚ)
deriving DecidableEq

/-- Python 3 true division of two ints: `ZeroDivisionError` on a zero
divisor, otherwise a `float` (never an `int`). -/
def py_div : PyVal → PyVal → Option PyVal
| PyVal.pint a, PyVal.pint b =>
    if b = 0 then none else some (PyVal.pfloat ((a : ℚ) / (b : ℚ)))
| _, _ => none

/-- Python 3 multiplication on the numeric tower: `int` mixes with both
`float` and `Decimal`, but `float * Decimal` (either order) raises
`TypeError` because `decimal.Decimal` refuses implicit float conversion. -/
def py_mul : PyVal → PyVal → Option PyVal
| PyVal.pint a, PyVal.pint b => some (PyVal.pint (a * b))
| PyVal.pint a, PyVal.pfloat b => some (PyVal.pfloat (a * b))
| PyVal.pfloat a, PyVal.pint b => some (PyVal.pfloat (a * b))
| PyVal.pfloat a, PyVal.pfloat b => some (PyVal.pfloat (a * b))
| PyVal.pint a, PyVal.pdec b => some (PyVal.pdec (a * b))
| PyVal.pdec a, PyVal.pint b => some (PyVal.pdec (a * b))
| PyVal.pdec a, PyVal.pdec b => some (PyVal.pdec (a * b))
| PyVal.pfloat _, PyVal.pdec _ => none
| PyVal.pdec _, PyVal.pfloat _ => none

/-- Python 3 subtraction on the numeric tower, with the same mixing rules
as `py_mul`. -/
def py_sub : PyVal → PyVal → Option PyVal
| PyVal.pint a, PyVal.pint b => some (PyVal.pint (a - b))
| PyVal.pint a, PyVal.pfloat b => some (PyVal.pfloat (a - b))
| PyVal.pfloat a, PyVal.pint b => some (PyVal.pfloat (a - b))
| PyVal.pfloat a, PyVal.pfloat b => some (PyVal.pfloat (a - b))
| PyVal.pint a, PyVal.pdec b => some (PyVal.pdec (a - b))
| PyVal.pdec a, PyVal.pint b => some (PyVal.pdec (a - b))
| PyVal.pdec a, PyVal.pdec b => some (PyVal.pdec (a - b))
| PyVal.pfloat _, PyVal.pdec _ => none
| PyVal.pdec _, PyVal.pfloat _ => none

/-- Python 3 addition on the numeric tower, with the same mixing rules as
`py_mul`. -/
def py_add : PyVal → PyVal → Option PyVal
| PyVal.pint a, PyVal.pint b => some (PyVal.pint (a + b))
| PyVal.pint a, PyVal.pfloat b => some (PyVal.pfloat (a + b))
| PyVal.pfloat a, PyVal.pint b => some (PyVal.pfloat (a + b))
| PyVal.pfloat a, PyVal.pfloat b => some (PyVal.pfloat (a + b))
| PyVal.pint a, PyVal.pdec b => some (PyVal.pdec (a + b))
| PyVal.pdec a, PyVal.pint b => some (PyVal.pdec (a + b))
| PyVal.pdec a, PyVal.pdec b => some (PyVal.pdec (a + b))
| PyVal.pfloat _, PyVal.pdec _ => none
| PyVal.pdec _, PyVal.pfloat _ => none

/-- Lines 147-150 of `services.py` evaluated under Python's runtime
semantics: `execution_price * (1 - (1 / order.leverage) * Decimal('0.9'))`
for a long position, `execution_price * (1 + ...)` for a short one, where
`execution_price` is a `Decimal` and `order.leverage` an `int`.  `none`
means the evaluation raises. -/
def liquidation_price_py (execution_price : ℚ) (leverage : ℤ)
    (is_long : Bool) : Option PyVal :=
  match py_div (PyVal.pint 1) (PyVal.pint leverage) with
  | none => none
  | some inv =>
    match py_mul inv (PyVal.pdec (9 / 10)) with
    | none => none
    | some prod =>
      match (if is_long then py_sub (PyVal.pint 1) prod
             else py_add (PyVal.pint 1) prod) with
      | none => none
      | some factor => py_mul (PyVal.pdec execution_price) factor

/-- Market buy of 1 unit at leverage 10 with no explicit price (the
scenario of spec section 8: execution at the mock price 95000). -/
def req_demo : OrderReq :=
  { symbol := "BTCUSDT", side := Side.buy, order_type := OrderType.market,
    price := none, stop_price := none, quantity := 1, leverage := 10,
    margin_mode := MarginMode.cross }

/-- Market buy of 1 unit at an explicit price of 100. -/
def req_buy100 : OrderReq :=
  { symbol := "BTCUSDT", side := Side.buy, order_type := OrderType.market,
    price := some 100, stop_price := none, quantity := 1, leverage := 10,
    margin_mode := MarginMode.cross }

/-- Market sell of 1 unit at an explicit price of 100. -/
def req_sell100 : OrderReq :=
  { symbol := "BTCUSDT", side := Side.sell, order_type := OrderType.market,
    price := some 100, stop_price := none, quantity := 1, leverage := 10,
    margin_mode := MarginMode.cross }

/-- Market sell of 1 unit at an explicit price of 150. -/
def req_sell150 : OrderReq :=
  { symbol := "BTCUSDT", side := Side.sell, order_type := OrderType.market,
    price := some 150, stop_price := none, quantity := 1, leverage := 10,
    margin_mode := MarginMode.cross }

/-- Limit buy of 1 unit at price 100, leverage 10 (parks as an open
order reserving margin 10). -/
def req_limit : OrderReq :=
  { symbol := "BTCUSDT", side := Side.buy, order_type := OrderType.limit,
    price := some 100, stop_price := none, quantity := 1, leverage := 10,
    margin_mode := MarginMode.cross }

/-- State the intended-arithmetic engine commits for `req_demo` from a
fresh account (the faithful runtime aborts this fill; see C2): one filled
order, one open long position of 1 unit at entry 95000 with margin 9500,
one trade, balance 9962, available balance 462. -/
def demo_state_1 : EngineState :=
  ok_state (create_order initial_state req_demo) initial_state

/-- State after a market buy of 1 unit at 100 from a fresh account, under
the intended-arithmetic engine (the faithful runtime aborts the opening
fill, so this state exhibits the arithmetic the source lines encode). -/
def c8_state : EngineState :=
  ok_state (create_order initial_state req_buy100) initial_state

/-- State after a market buy of 1 unit at 100 and then a market sell of
1 unit at 100, under the intended-arithmetic engine: the sell fully
reduces the long position. -/
def c3_state : EngineState :=
  ok_state (create_order c8_state req_sell100) initial_state

/-- State after a market buy of 1 unit at 100 and then a market sell of
1 unit at 150, under the intended-arithmetic engine: the sell fully
reduces the long position at a profit of 50. -/
def c10_state : EngineState :=
  ok_state (create_order c8_state req_sell150) initial_state

/-- State after parking the limit order of `req_limit` from a fresh
account. -/
def c7_state : EngineState :=
  ok_state (create_order initial_state req_limit) initial_state

/-- The parked limit order stored in `c7_state`. -/
def c7_order : Order :=
  { id := 0, symbol := "BTCUSDT", side := Side.buy,
    order_type := OrderType.limit, price := some 100, stop_price := none,
    quantity := 1, leverage := 10, margin_mode := MarginMode.cross,
    margin_used := 10, status := OrderStatus.opened, filled_quantity := 0,
    average_price := none, commission := 0 }

/-- State after cancelling the parked limit order of `c7_state`. -/
def c7_state_2 : EngineState :=
  ok_state (cancel_order c7_state 0) initial_state

/-- The open position stored in `demo_state_1`. -/
def c9_pos : Position :=
  { id := 0, symbol := "BTCUSDT", side := PosSide.long, quantity := 1,
    entry_price := 95000, leverage := 10, margin_mode := MarginMode.cross,
    margin := 9500, liquidation_price := 86450, realized_pnl := 0,
    is_open := true }

/-- The open position stored in `c8_state`. -/
def c8_pos : Position :=
  { id := 0, symbol := "BTCUSDT", side := PosSide.long, quantity := 1,
    entry_price := 100, leverage := 10, margin_mode := MarginMode.cross,
    margin := 10, liquidation_price := 91, realized_pnl := 0,
    is_open := true }

/-- Market buy of 1 unit at price 200000 with leverage 1: requires more
margin than a fresh account has. -/
def req_big : OrderReq :=
  { symbol := "BTCUSDT", side := Side.buy, order_type := OrderType.market,
    price := some 200000, stop_price := none, quantity := 1, leverage := 1,
    margin_mode := MarginMode.cross }

/-- Open long position of 1 unit at entry 100 (the spec's VWAP example). -/
def c5_pos : Position :=
  { id := 0, symbol := "BTCUSDT", side := PosSide.long, quantity := 1,
    entry_price := 100, leverage := 10, margin_mode := MarginMode.cross,
    margin := 10, liquidation_price := 91, realized_pnl := 0,
    is_open := true }

/-- Filled buy order of 2 units at 200 (the spec's VWAP example). -/
def c5_ord : Order :=
  { id := 1, symbol := "BTCUSDT", side := Side.buy,
    order_type := OrderType.market, price := some 200, stop_price := none,
    quantity := 2, leverage := 10, margin_mode := MarginMode.cross,
    margin_used := 40, status := OrderStatus.filled, filled_quantity := 2,
    average_price := some 200, commission := 0 }

/-- A pending market buy of 1 unit at 100 used to drive a fill directly. -/
def c8_ord : Order :=
  { id := 5, symbol := "BTCUSDT", side := Side.buy,
    order_type := OrderType.market, price := some 100, stop_price := none,
    quantity := 1, leverage := 10, margin_mode := MarginMode.cross,
    margin_used := 10, status := OrderStatus.pending, filled_quantity := 0,
    average_price := none, commission := 0 }

/-- A pending market sell of 1 unit at 100 used to drive a fill directly. -/
def c8_sell_ord : Order :=
  { id := 6, symbol := "BTCUSDT", side := Side.sell,
    order_type := OrderType.market, price := some 100, stop_price := none,
    quantity := 1, leverage := 10, margin_mode := MarginMode.cross,
    margin_used := 10, status := OrderStatus.pending, filled_quantity := 0,
    average_price := none, commission := 0 }

/-- State after explicitly closing the position of `c8_state` in full at
price 150, under the intended-arithmetic engine. -/
def c10_close_state : EngineState :=
  ok_state (close_position c8_state 0 (some 150) none) initial_state

/-- The closing trade written into `c10_close_state`: it carries the
realized profit of 50. -/
def c10_trade : Trade :=
  { id := 1, order_ref := none, position_ref := some 0, symbol := "BTCUSDT",
    side := Side.sell, price := 150, quantity := 1, commission := 3 / 50,
    realized_pnl := 50 }

/-- TradingService._create_position as Python executes it: the
liquidation-price expression is evaluated under the runtime numeric-tower
semantics (`liquidation_price_py`), and its TypeError aborts the function
before `Position.objects.create` runs.  The success branch (never taken)
would store the computed value. -/
def create_position_py (order : Order) (execution_price : ℚ)
    (side : PosSide) (pid : ℕ) : Except EngineError Position :=
  let notional_value := order.quantity * execution_price
  let margin := notional_value / (order.leverage : ℚ)
  match liquidation_price_py execution_price (order.leverage : ℤ)
      (side == PosSide.long) with
  | some (PyVal.pdec lp) =>
    Except.ok
      { id := pid, symbol := order.symbol, side := side,
        quantity := order.quantity, entry_price := execution_price,
        leverage := order.leverage, margin_mode := order.margin_mode,
        margin := margin, liquidation_price := lp,
        realized_pnl := 0, is_open := true }
  | _ => Except.error EngineError.type_error

/-- TradingService._add_to_position as Python executes it: the entry-price
and quantity arithmetic succeeds, but the liquidation-price recomputation
(lines 179/181 of `services.py`) raises TypeError before
`position.save()`. -/
def add_to_position_py (position : Position) (order : Order)
    (execution_price : ℚ) : Except EngineError Position :=
  let total_value := position.entry_price * position.quantity +
    execution_price * order.quantity
  let new_quantity := position.quantity + order.quantity
  let new_entry_price := total_value / new_quantity
  match liquidation_price_py new_entry_price (position.leverage : ℤ)
      (position.side == PosSide.long) with
  | some (PyVal.pdec lp) =>
    Except.ok { position with
      quantity := new_quantity, entry_price := new_entry_price,
      margin := position.margin + order.margin_used,
      liquidation_price := lp }
  | _ => Except.error EngineError.type_error

/-- TradingService._execute_order as Python executes it: identical to
`execute_order` except that the position-creation and same-side-addition
branches propagate the TypeError of the liquidation-price expression, in
which case `@transaction.atomic` rolls the whole fill back (no trade row,
no commission debit).  Only the opposite-side reduce branch can commit. -/
def execute_order_py (s : EngineState) (order : Order)
    (execution_price : ℚ) : Except EngineError EngineState :=
  let commission := order.quantity * execution_price * TAKER_FEE
  let filled : Order := filled_order order execution_price
  let s1 : EngineState :=
    { s with orders := s.orders.map (fun o => if o.id = order.id then filled else o) }
  let position_side := if order.side = Side.buy then PosSide.long else PosSide.short
  let existing_position :=
    s.positions.find? (fun p => p.symbol == order.symbol && p.is_open)
  let step : Except EngineError EngineState :=
    match existing_position with
    | some position =>
      if (position.side = PosSide.long ∧ order.side = Side.buy) ∨
         (position.side = PosSide.short ∧ order.side = Side.sell) then
        Except.map (fun newpos =>
            { s1 with positions := s1.positions.map (fun p =>
                if p.id = position.id then newpos else p) })
          (add_to_position_py position filled execution_price)
      else
        let rw := reduce_position position filled execution_price s1.wallet
        Except.ok { s1 with
          positions := s1.positions.map (fun p =>
            if p.id = position.id then rw.1 else p),
          wallet := rw.2 }
    | none =>
      Except.map (fun newpos =>
          { s1 with
            positions := s1.positions ++ [newpos],
            next_position_id := s1.next_position_id + 1 })
        (create_position_py filled execution_price position_side
          s1.next_position_id)
  Except.map (fun s2 =>
    let trade : Trade := fill_trade s order execution_price
    let s3 : EngineState :=
      { s2 with
        trades := s2.trades ++ [trade],
        next_trade_id := s2.next_trade_id + 1 }
    { s3 with wallet :=
        { balance := s3.wallet.balance - commission,
          available_balance := s3.wallet.available_balance - commission } })
    step

/-- TradingService.create_order as Python executes it: the margin check
and the order/reservation writes are those of `create_order`, but a
market order's immediate fill runs `execute_order_py`; its TypeError
rolls back the entire submission, order row and reservation included. -/
def create_order_py (s : EngineState) (req : OrderReq) :
    Except EngineError EngineState :=
  if s.wallet.available_balance < required_margin_for req then
    Except.error EngineError.insufficient_margin
  else
    let order := new_order s req
    let s1 := reserve_state s req
    if req.order_type = OrderType.market then
      execute_order_py s1 order ((py_price_arg req.price).getD 95000)
    else
      Except.ok { s1 with orders := s1.orders.map (fun o =>
        if o.id = order.id then { o with status := OrderStatus.opened } else o) }

/-- Wallet invariant of the faithful runtime model: order margins are
nonnegative, order ids are below the id counter, the gap between balance
and available balance covers every active order's reserved margin, the
available balance is nonnegative, and no position row exists (no
position-opening fill ever commits on this code). -/
def PyInv (s : EngineState) : Prop :=
  (∀ o ∈ s.orders, 0 ≤ o.margin_used) ∧
  (∀ o ∈ s.orders, o.id < s.next_order_id) ∧
  reserved_margin s.orders ≤ s.wallet.balance - s.wallet.available_balance ∧
  0 ≤ s.wallet.available_balance ∧
  s.positions = []

/-- States reachable from a fresh account by committed operations of the
faithful runtime model, with positive submitted quantities and
nonnegative submitted prices (as at the serializer boundary).  Fills of
parked (open) orders are included at any nonnegative price, covering the
spec's fillOrder operation. -/
inductive ReachPy : EngineState → Prop
| init : ReachPy initial_state
| submit (s s2 : EngineState) (req : OrderReq) : ReachPy s →
    0 < req.quantity → (∀ p, req.price = some p → 0 ≤ p) →
    create_order_py s req = Except.ok s2 → ReachPy s2
| fill (s s2 : EngineState) (oid : ℕ) (p : ℚ) (o : Order) : ReachPy s →
    s.orders.find? (fun x => x.id == oid) = some o →
    o.status = OrderStatus.opened → 0 ≤ p →
    execute_order_py s o p = Except.ok s2 → ReachPy s2
| cancel (s s2 : EngineState) (oid : ℕ) : ReachPy s →
    cancel_order s oid = Except.ok s2 → ReachPy s2
| close (s s2 : EngineState) (pid : ℕ) (price quantity : Option ℚ) :
    ReachPy s → close_position s pid price quantity = Except.ok s2 → ReachPy s2

/-- Limit buy of 1 unit at price -100: the serializer bounds neither the
price sign nor its size, a nonzero negative price is truthy, and the
limit path runs no fill, so this request commits on the source. -/
def req_limit_neg : OrderReq :=
  { symbol := "BTCUSDT", side := Side.buy, order_type := OrderType.limit,
    price := some (-100), stop_price := none, quantity := 1, leverage := 10,
    margin_mode := MarginMode.cross }

/-- A database state holding the open long position `c5_pos`, as spec
section 4.2 presumes can exist when a same-direction fill arrives. -/
def c5_add_state : EngineState :=
  { initial_state with positions := [c5_pos], next_position_id := 1 }

/-- A database state holding the open long position `c8_pos`. -/
def c8_add_state : EngineState :=
  { initial_state with positions := [c8_pos], next_position_id := 1 }

/-- State committed by the opposite-side fill of `c8_sell_ord` against the
open position of `c8_add_state` (the reduce path, which really commits). -/
def c8_reduce_state : EngineState :=
  ok_state (execute_order_py c8_add_state c8_sell_ord 100) initial_state

/-! Helper lemmas about keyed list updates (the model of Django `save()`)
and about the reserved-margin bookkeeping. -/

theorem find?_append_of_none {α : Type} {p : α → Bool} {l1 l2 : List α}
    (h : l1.find? p = none) : (l1 ++ l2).find? p = l2.find? p := by
  induction l1 with
  | nil => rfl
  | cons x t ih =>
    rw [List.find?_cons] at h
    cases hx : p x with
    | true => rw [hx] at h; exact absurd h (by simp)
    | false =>
      rw [hx] at h
      rw [List.cons_append, List.find?_cons, hx]
      exact ih h

theorem find?_map_update {α : Type} (idf : α → ℕ) (l : List α) (i : ℕ)
    (g : α → α) (hg : ∀ a : α, idf a = i → idf (g a) = i) :
    (l.map (fun a => if idf a = i then g a else a)).find?
        (fun a => idf a == i) =
      (l.find? (fun a => idf a == i)).map g := by
  induction l with
  | nil => rfl
  | cons x t ih =>
    by_cases hx : idf x = i
    · rw [List.map_cons, if_pos hx]
      rw [List.find?_cons_of_pos _ (by simpa using hg x hx)]
      rw [List.find?_cons_of_pos _ (by simpa using hx)]
      rfl
    · rw [List.map_cons, if_neg hx]
      rw [List.find?_cons_of_neg _ (by simpa using hx)]
      rw [List.find?_cons_of_neg _ (by simpa using hx)]
      exact ih

theorem mem_map_update {α : Type} (idf : α → ℕ) (l : List α) (i : ℕ)
    (newP : α) :
    ∀ a ∈ l.map (fun p => if idf p = i then newP else p),
      idf a = i → a = newP := by
  intro a ha hid
  rcases List.mem_map.1 ha with ⟨b, hb, hba⟩
  by_cases h : idf b = i
  · rw [if_pos h] at hba
    exact hba.symm
  · rw [if_neg h] at hba
    exact absurd (by rw [hba]; exact hid) h

theorem map_update_id {α : Type} (idf : α → ℕ) (l : List α) (i : ℕ)
    (g : α → α) (h : ∀ a ∈ l, idf a ≠ i) :
    l.map (fun a => if idf a = i then g a else a) = l := by
  induction l with
  | nil => rfl
  | cons x t ih =>
    rw [List.map_cons, if_neg (h x (List.mem_cons_self x t))]
    rw [ih (fun a ha => h a (List.mem_cons_of_mem x ha))]

theorem reserved_margin_cons (o : Order) (l : List Order) :
    reserved_margin (o :: l) =
      (if o.is_active then o.margin_used else 0) + reserved_margin l := by
  simp [reserved_margin]

theorem reserved_margin_append (l1 l2 : List Order) :
    reserved_margin (l1 ++ l2) = reserved_margin l1 + reserved_margin l2 := by
  simp [reserved_margin]

theorem reserved_margin_nonneg (l : List Order)
    (h : ∀ o ∈ l, 0 ≤ o.margin_used) : 0 ≤ reserved_margin l := by
  induction l with
  | nil => simp [reserved_margin]
  | cons x t ih =>
    rw [reserved_margin_cons]
    have hx := h x (List.mem_cons_self x t)
    have ht := ih (fun o ho => h o (List.mem_cons_of_mem x ho))
    have hx2 : 0 ≤ if x.is_active then x.margin_used else 0 := by
      split
      · exact hx
      · exact le_refl 0
    linarith

theorem reserved_margin_map_le (l : List Order) (i : ℕ) (g : Order → Order)
    (hg : ∀ o : Order, (g o).is_active = false)
    (hm : ∀ o ∈ l, 0 ≤ o.margin_used) :
    reserved_margin (l.map (fun o => if o.id = i then g o else o)) ≤
      reserved_margin l := by
  induction l with
  | nil => simp
  | cons x t ih =>
    rw [List.map_cons, reserved_margin_cons, reserved_margin_cons]
    have ht := ih (fun o ho => hm o (List.mem_cons_of_mem x ho))
    have hhead : (if (if x.id = i then g x else x).is_active then
        (if x.id = i then g x else x).margin_used else 0) ≤
        (if x.is_active then x.margin_used else 0) := by
      by_cases hx : x.id = i
      · rw [if_pos hx]
        simp only [hg x, Bool.false_eq_true, if_false]
        by_cases hxa : x.is_active = true
        · simp only [hxa, if_true]
          exact hm x (List.mem_cons_self x t)
        · simp [hxa]
      · rw [if_neg hx]
    linarith

theorem reserved_margin_update_le (l : List Order) (i : ℕ)
    (g : Order → Order) (hg : ∀ o : Order, (g o).is_active = false)
    (hm : ∀ o ∈ l, 0 ≤ o.margin_used) (ord : Order)
    (hfind : l.find? (fun o => o.id == i) = some ord)
    (hact : ord.is_active = true) :
    reserved_margin (l.map (fun o => if o.id = i then g o else o)) ≤
      reserved_margin l - ord.margin_used := by
  induction l with
  | nil => exact absurd hfind (by simp)
  | cons x t ih =>
    rw [List.map_cons, reserved_margin_cons, reserved_margin_cons]
    by_cases hx : x.id = i
    · rw [List.find?_cons_of_pos _ (by simpa using hx)] at hfind
      have hxo : x = ord := by simpa using hfind
      subst hxo
      rw [if_pos hx]
      simp only [hg x, Bool.false_eq_true, if_false, hact, if_true]
      have ht := reserved_margin_map_le t i g hg
        (fun o ho => hm o (List.mem_cons_of_mem x ho))
      linarith
    · rw [List.find?_cons_of_neg _ (by simpa using hx)] at hfind
      rw [if_neg hx]
      have ht := ih (fun o ho => hm o (List.mem_cons_of_mem x ho)) hfind
      linarith

/-! Structural facts about `execute_order` and the filled order. -/

theorem cancelled_not_active (o : Order) :
    ({ o with status := OrderStatus.cancelled } : Order).is_active = false := rfl

theorem new_order_is_active (s : EngineState) (req : OrderReq) :
    (new_order s req).is_active = true := rfl

theorem execute_order_trades (s : EngineState) (ord : Order) (e : ℚ) :
    (execute_order s ord e).trades = s.trades ++ [fill_trade s ord e] := by
  cases hfp : s.positions.find? (fun p => p.symbol == ord.symbol && p.is_open) with
  | none => simp only [execute_order, fill_trade, hfp]
  | some pos =>
    simp only [execute_order, fill_trade, hfp]
    split <;> rfl

/-! Facts about the faithful runtime model: the liquidation-price
expression always raises, so the position-creation and same-side-addition
branches never commit, and the wallet invariant holds in every reachable
state. -/

theorem liquidation_price_py_none (p : ℚ) (L : ℤ) (b : Bool) :
    liquidation_price_py p L b = none := by
  by_cases hL : L = 0
  · simp [liquidation_price_py, py_div, hL]
  · simp [liquidation_price_py, py_div, py_mul, hL]

theorem create_position_py_err (ord : Order) (e : ℚ) (side : PosSide)
    (pid : ℕ) :
    create_position_py ord e side pid = Except.error EngineError.type_error := by
  simp only [create_position_py, liquidation_price_py_none]

theorem add_to_position_py_err (pos : Position) (ord : Order) (e : ℚ) :
    add_to_position_py pos ord e = Except.error EngineError.type_error := by
  simp only [add_to_position_py, liquidation_price_py_none]

theorem execute_order_py_create_err (s : EngineState) (ord : Order) (e : ℚ)
    (h : s.positions.find? (fun p => p.symbol == ord.symbol && p.is_open) = none) :
    execute_order_py s ord e = Except.error EngineError.type_error := by
  simp [execute_order_py, h, create_position_py_err, Except.map]

theorem execute_order_py_add_err (s : EngineState) (ord : Order) (e : ℚ)
    (pos : Position)
    (h : s.positions.find? (fun p => p.symbol == ord.symbol && p.is_open) = some pos)
    (hside : (pos.side = PosSide.long ∧ ord.side = Side.buy) ∨
      (pos.side = PosSide.short ∧ ord.side = Side.sell)) :
    execute_order_py s ord e = Except.error EngineError.type_error := by
  simp [execute_order_py, h, hside, add_to_position_py_err, Except.map]

theorem execute_order_py_reduce_ok (s : EngineState) (ord : Order) (e : ℚ)
    (pos : Position)
    (h : s.positions.find? (fun p => p.symbol == ord.symbol && p.is_open) = some pos)
    (hside : ¬ ((pos.side = PosSide.long ∧ ord.side = Side.buy) ∨
      (pos.side = PosSide.short ∧ ord.side = Side.sell))) :
    (execute_order_py s ord e).isOk = true := by
  simp [execute_order_py, h, hside, Except.map, Except.isOk, Except.toBool]

theorem execute_order_py_not_insufficient (s : EngineState) (ord : Order)
    (e : ℚ) :
    execute_order_py s ord e ≠ Except.error EngineError.insufficient_margin := by
  cases hfp : s.positions.find? (fun p => p.symbol == ord.symbol && p.is_open) with
  | none =>
    rw [execute_order_py_create_err s ord e hfp]
    simp
  | some pos =>
    by_cases hside : (pos.side = PosSide.long ∧ ord.side = Side.buy) ∨
        (pos.side = PosSide.short ∧ ord.side = Side.sell)
    · rw [execute_order_py_add_err s ord e pos hfp hside]
      simp
    · simp [execute_order_py, hfp, hside, Except.map]

theorem execute_order_py_ok_trades (s : EngineState) (ord : Order) (e : ℚ)
    (s2 : EngineState) (h : execute_order_py s ord e = Except.ok s2) :
    s2.trades = s.trades ++ [fill_trade s ord e] := by
  cases hfp : s.positions.find? (fun p => p.symbol == ord.symbol && p.is_open) with
  | none =>
    rw [execute_order_py_create_err s ord e hfp] at h
    exact absurd h (by simp)
  | some pos =>
    by_cases hside : (pos.side = PosSide.long ∧ ord.side = Side.buy) ∨
        (pos.side = PosSide.short ∧ ord.side = Side.sell)
    · rw [execute_order_py_add_err s ord e pos hfp hside] at h
      exact absurd h (by simp)
    · simp only [execute_order_py, hfp, if_neg hside, Except.map] at h
      have hs2 := (Except.ok.inj h).symm
      rw [hs2]

theorem inv_py_create (s s2 : EngineState) (req : OrderReq)
    (hq : 0 < req.quantity) (hp : ∀ p, req.price = some p → 0 ≤ p)
    (hInv : PyInv s) (h : create_order_py s req = Except.ok s2) :
    PyInv s2 := by
  obtain ⟨hm, hid, hres, hav, hpos⟩ := hInv
  have he : 0 ≤ (py_price_arg req.price).getD 95000 := by
    cases hpr : req.price with
    | none => norm_num [py_price_arg]
    | some p =>
      by_cases hz : p = 0
      · norm_num [py_price_arg, hz]
      · simp only [py_price_arg, hz, if_false, Option.getD_some]
        exact hp p hpr
  have hm0 : 0 ≤ required_margin_for req := by
    unfold required_margin_for
    apply div_nonneg (mul_nonneg hq.le he) (by positivity)
  simp only [create_order_py] at h
  split at h
  · exact absurd h (by simp)
  · rename_i hnlt
    split at h
    · have hfind : (reserve_state s req).positions.find?
          (fun p => p.symbol == (new_order s req).symbol && p.is_open) = none := by
        show s.positions.find? _ = none
        rw [hpos]
        rfl
      rw [execute_order_py_create_err _ _ _ hfind] at h
      exact absurd h (by simp)
    · have hs2 := (Except.ok.inj h).symm
      rw [hs2]
      refine ⟨?_, ?_, ?_, ?_, ?_⟩
      · intro o ho
        rcases List.mem_map.1 ho with ⟨b, hb, hba⟩
        have hmb : 0 ≤ b.margin_used := by
          rcases List.mem_append.1 hb with hb1 | hb1
          · exact hm b hb1
          · have hb2 : b = new_order s req := by simpa using hb1
            rw [hb2]
            exact hm0
        by_cases hbid : b.id = (new_order s req).id
        · rw [if_pos hbid] at hba
          rw [← hba]
          exact hmb
        · rw [if_neg hbid] at hba
          rw [← hba]
          exact hmb
      · intro o ho
        rcases List.mem_map.1 ho with ⟨b, hb, hba⟩
        have hbid2 : o.id = b.id := by
          by_cases hbid : b.id = (new_order s req).id
          · rw [if_pos hbid] at hba
            rw [← hba]
          · rw [if_neg hbid] at hba
            rw [← hba]
        rw [hbid2]
        rcases List.mem_append.1 hb with hb1 | hb1
        · have := hid b hb1
          show b.id < s.next_order_id + 1
          omega
        · have hb2 : b = new_order s req := by simpa using hb1
          rw [hb2]
          show s.next_order_id < s.next_order_id + 1
          omega
      · have heq : reserved_margin ((reserve_state s req).orders.map (fun o =>
            if o.id = (new_order s req).id then
              { o with status := OrderStatus.opened } else o)) =
            reserved_margin (reserve_state s req).orders := by
          have hmap : (reserve_state s req).orders.map (fun o =>
              if o.id = (new_order s req).id then
                { o with status := OrderStatus.opened } else o) =
              s.orders ++ [{ new_order s req with status := OrderStatus.opened }] := by
            show (s.orders ++ [new_order s req]).map _ = _
            rw [List.map_append, map_update_id (fun o : Order => o.id) s.orders
              (new_order s req).id _ ?_]
            · simp
            · intro a ha
              have := hid a ha
              simp only [new_order]
              omega
          rw [hmap]
          show _ = reserved_margin (s.orders ++ [new_order s req])
          rw [reserved_margin_append, reserved_margin_append]
          simp [reserved_margin, Order.is_active, new_order]
        rw [heq]
        show reserved_margin (s.orders ++ [new_order s req]) ≤
          s.wallet.balance - (s.wallet.available_balance - required_margin_for req)
        rw [reserved_margin_append]
        have hone : reserved_margin [new_order s req] = required_margin_for req := by
          simp [reserved_margin, Order.is_active, new_order]
        rw [hone]
        linarith
      · show 0 ≤ s.wallet.available_balance - required_margin_for req
        push_neg at hnlt
        linarith
      · show s.positions = []
        exact hpos

theorem inv_py_cancel (s s2 : EngineState) (oid : ℕ) (hInv : PyInv s)
    (h : cancel_order s oid = Except.ok s2) : PyInv s2 := by
  obtain ⟨hm, hid, hres, hav, hpos⟩ := hInv
  unfold cancel_order at h
  split at h
  · exact absurd h (by simp)
  · rename_i ord hfo
    split at h
    · rename_i hact
      have hs2 := (Except.ok.inj h).symm
      rw [hs2]
      refine ⟨?_, ?_, ?_, ?_, ?_⟩
      · intro o ho
        rcases List.mem_map.1 ho with ⟨b, hb, hba⟩
        by_cases hbid : b.id = oid
        · rw [if_pos hbid] at hba
          rw [← hba]
          exact hm b hb
        · rw [if_neg hbid] at hba
          rw [← hba]
          exact hm b hb
      · intro o ho
        rcases List.mem_map.1 ho with ⟨b, hb, hba⟩
        have hbid2 : o.id = b.id := by
          by_cases hbid : b.id = oid
          · rw [if_pos hbid] at hba
            rw [← hba]
          · rw [if_neg hbid] at hba
            rw [← hba]
        rw [hbid2]
        exact hid b hb
      · have h1 := reserved_margin_update_le s.orders oid
          (fun o => { o with status := OrderStatus.cancelled })
          (fun o => cancelled_not_active o) hm ord hfo hact
        show reserved_margin (s.orders.map _) ≤
          s.wallet.balance - (s.wallet.available_balance + ord.margin_used)
        linarith
      · show 0 ≤ s.wallet.available_balance + ord.margin_used
        have := hm ord (List.mem_of_find?_eq_some hfo)
        linarith
      · show s.positions = []
        exact hpos
    · exact absurd h (by simp)

theorem inv_py_close (s s2 : EngineState) (pid : ℕ)
    (price quantity : Option ℚ) (hInv : PyInv s)
    (h : close_position s pid price quantity = Except.ok s2) : PyInv s2 := by
  have hpos := hInv.2.2.2.2
  simp only [close_position, hpos, List.find?] at h
  exact absurd h (by simp)

theorem inv_py_fill (s s2 : EngineState) (o : Order) (p : ℚ)
    (hInv : PyInv s) (h : execute_order_py s o p = Except.ok s2) :
    PyInv s2 := by
  have hpos := hInv.2.2.2.2
  have hfind : s.positions.find?
      (fun q => q.symbol == o.symbol && q.is_open) = none := by
    rw [hpos]
    rfl
  rw [execute_order_py_create_err s o p hfind] at h
  exact absurd h (by simp)

theorem reach_py_inv (s : EngineState) (h : ReachPy s) : PyInv s := by
  induction h with
  | init =>
    refine ⟨?_, ?_, ?_, ?_, ?_⟩ <;>
      norm_num [initial_state, reserved_margin, PyInv]
  | submit s s2 req hr hq hp hok ih => exact inv_py_create s s2 req hq hp ih hok
  | fill s s2 oid p o hr hfo hst hpr hok ih => exact inv_py_fill s s2 o p ih hok
  | cancel s s2 oid hr hok ih => exact inv_py_cancel s s2 oid ih hok
  | close s s2 pid price quantity hr hok ih =>
    exact inv_py_close s s2 pid price quantity ih hok

/-! Claim theorems. -/

/-- C1 (amended): for every state reachable from a fresh account by
committed engine operations (submitOrder with its immediate fill, fills of
parked orders, cancelOrder, closePosition) whose submitted quantities are
positive and whose submitted prices are nonnegative, both
`available ≤ balance` and `0 ≤ available` hold.  On this code the second
part holds for a degenerate reason: no position-opening fill ever commits
(the liquidation-price TypeError of C6 rolls it back), so the unchecked
debits of the close and reduce paths never run from a reachable state.
With a negative submitted price, `available ≤ balance` fails (see the
counterexample), so the sign hypotheses are necessary. -/
theorem C1_wallet_invariant (s : EngineState) (h : ReachPy s) :
    s.wallet.available_balance ≤ s.wallet.balance ∧
    0 ≤ s.wallet.available_balance := by
  obtain ⟨hm, hid, hres, hav, hpos⟩ := reach_py_inv s h
  have h0 := reserved_margin_nonneg s.orders hm
  exact ⟨by linarith, hav⟩

theorem C1_wallet_invariant_witness :
    c7_state.wallet.available_balance ≤ c7_state.wallet.balance ∧
    0 ≤ c7_state.wallet.available_balance :=
  C1_wallet_invariant c7_state
    (ReachPy.submit initial_state c7_state req_limit ReachPy.init
      (by norm_num [req_limit])
      (fun p hp => by simp [req_limit] at hp; linarith)
      (by norm_num [create_order_py, c7_state, ok_state, create_order,
        req_limit, initial_state, required_margin_for, py_price_arg,
        new_order, reserve_state] <;> simp))

/-- C1 counterexample: a committed submission after which
`available > balance` exists: a limit buy of 1 unit at the
serializer-accepted negative price -100 reserves the negative margin -10,
leaving balance 10000 and available 10010; the limit path runs no fill, so
nothing aborts and the state commits. -/
theorem C1_counterexample :
    (create_order_py initial_state req_limit_neg).map
        (fun st => st.wallet.balance) = Except.ok 10000 ∧
    (create_order_py initial_state req_limit_neg).map
        (fun st => st.wallet.available_balance) = Except.ok 10010 ∧
    ((10000 : ℚ) < 10010) := by
  refine ⟨?_, ?_, by norm_num⟩ <;>
    norm_num [create_order_py, req_limit_neg, initial_state,
      required_margin_for, py_price_arg, new_order, reserve_state,
      Except.map] <;> simp

/-- C2 counterexample: the scenario's market buy never commits on the
source — the fill aborts with the liquidation-price TypeError and the
atomic transaction rolls the whole submission back — and even under the
intended exact-arithmetic reading of the same lines the committed
available balance would be 462, not 500 (line 137 deducts the commission
from the available balance as well). -/
theorem C2_counterexample :
    create_order_py initial_state req_demo =
      Except.error EngineError.type_error ∧
    (create_order initial_state req_demo).map
        (fun st => st.wallet.available_balance) = Except.ok 462 ∧
    (create_order initial_state req_demo).map
        (fun st => st.wallet.available_balance) ≠ Except.ok 500 := by
  refine ⟨?_, ?_, ?_⟩
  · have h1 : create_order_py initial_state req_demo =
        execute_order_py (reserve_state initial_state req_demo)
          (new_order initial_state req_demo) 95000 := by
      norm_num [create_order_py, req_demo, initial_state,
        required_margin_for, py_price_arg]
    rw [h1]
    exact execute_order_py_create_err _ _ _ rfl
  · norm_num [create_order, required_margin_for, py_price_arg, req_demo,
      initial_state, new_order, reserve_state, execute_order, filled_order,
      fill_trade, create_position, TAKER_FEE, List.find?, Except.map]
  · norm_num [create_order, required_margin_for, py_price_arg, req_demo,
      initial_state, new_order, reserve_state, execute_order, filled_order,
      fill_trade, create_position, TAKER_FEE, List.find?, Except.map]

/-- C2 (amended): the scenario's submission itself never commits — it
aborts with the liquidation-price TypeError, leaving the wallet at
10000/10000.  Under the intended exact-arithmetic reading of the same
lines (the C6 type fault set aside): required margin 9500, available
balance 500 at reservation time, commission 38, and the committed outcome
would be balance 9962 with available 462 — not 500, because line 137
debits the commission from the available balance too (the margin 9500
does stay reserved in the open position). -/
theorem C2_amended_scenario :
    create_order_py initial_state req_demo =
      Except.error EngineError.type_error ∧
    (required_margin_for req_demo = 9500 ∧
    initial_state.wallet.available_balance - required_margin_for req_demo = 500 ∧
    create_order initial_state req_demo = Except.ok demo_state_1 ∧
    demo_state_1.orders.map Order.commission = [38] ∧
    demo_state_1.wallet.balance = 9962 ∧
    demo_state_1.wallet.available_balance = 462 ∧
    demo_state_1.positions.map Position.margin = [9500] ∧
    demo_state_1.positions.map Position.is_open = [true]) := by
  constructor
  · have h1 : create_order_py initial_state req_demo =
        execute_order_py (reserve_state initial_state req_demo)
          (new_order initial_state req_demo) 95000 := by
      norm_num [create_order_py, req_demo, initial_state,
        required_margin_for, py_price_arg]
    rw [h1]
    exact execute_order_py_create_err _ _ _ rfl
  · norm_num [create_order, required_margin_for, py_price_arg, req_demo,
      initial_state, new_order, reserve_state, execute_order, filled_order,
      fill_trade, create_position, TAKER_FEE, demo_state_1, ok_state,
      List.find?]

/-- C3 counterexample: a market buy of 1 at 100 followed by a market sell
of 1 at 100 (an opposite-side fill with order quantity equal to the
position quantity) leaves the position closed but with `quantity = 1`, not
0: the full-close branch of `_reduce_position` never resets the
quantity. -/
theorem C3_counterexample :
    create_order c8_state req_sell100 = Except.ok c3_state ∧
    c8_state.positions.map Position.quantity = [1] ∧
    req_sell100.quantity = 1 ∧
    c3_state.positions.map (fun p => (p.is_open, p.quantity)) = [(false, 1)] ∧
    ((1 : ℚ) ≠ 0) := by
  refine ⟨?_, ?_, ?_, ?_, by norm_num⟩ <;>
    norm_num [create_order, required_margin_for, py_price_arg, req_buy100,
      req_sell100, initial_state, new_order, reserve_state, execute_order,
      filled_order, fill_trade, create_position, reduce_position, reduce_pnl,
      TAKER_FEE, c8_state, c3_state, ok_state, List.find?, Order.is_active] <;>
    simp

/-- C3 (amended): a full close always sets `is_open = false` and releases
the whole margin; `close_position` additionally resets `quantity` to 0, but
an opposite-side fill with order quantity at least the position quantity
leaves `quantity` unchanged. -/
theorem C3_full_close (pos : Position) :
    (∀ pnl cq : ℚ, pos.quantity ≤ cq →
      ((close_position_calc pos pnl cq).1.is_open = false ∧
        (close_position_calc pos pnl cq).1.quantity = 0 ∧
        (close_position_calc pos pnl cq).2 = pos.margin)) ∧
    (∀ (ord : Order) (e : ℚ) (w : Wallet), pos.quantity ≤ ord.quantity →
      ((reduce_position pos ord e w).1.is_open = false ∧
        (reduce_position pos ord e w).1.quantity = pos.quantity ∧
        (reduce_position pos ord e w).2.balance =
          w.balance + reduce_pnl pos ord e + pos.margin)) := by
  constructor
  · intro pnl cq hle
    simp [close_position_calc, if_pos hle]
  · intro ord e w hle
    simp [reduce_position, if_pos hle]

theorem C3_full_close_witness :
    ((close_position_calc c8_pos 0 1).1.is_open = false ∧
      (close_position_calc c8_pos 0 1).1.quantity = 0 ∧
      (close_position_calc c8_pos 0 1).2 = c8_pos.margin) ∧
    ((reduce_position c8_pos c8_sell_ord 100 initial_state.wallet).1.is_open
        = false ∧
      (reduce_position c8_pos c8_sell_ord 100 initial_state.wallet).1.quantity
        = c8_pos.quantity ∧
      (reduce_position c8_pos c8_sell_ord 100 initial_state.wallet).2.balance
        = initial_state.wallet.balance + reduce_pnl c8_pos c8_sell_ord 100 +
            c8_pos.margin) :=
  ⟨(C3_full_close c8_pos).1 0 1 (by norm_num [c8_pos]),
   (C3_full_close c8_pos).2 c8_sell_ord 100 initial_state.wallet
     (by norm_num [c8_pos, c8_sell_ord])⟩

/-- C4: order submission fails with the insufficient-margin error exactly
when the available balance is strictly below
`quantity * execution_price / leverage` (execution price: the truthy limit
price if given, else the mock reference price).  The check precedes every
write and an error returns no successor state, so nothing is mutated.  A
sufficient-margin market order can still abort later with the
liquidation-price TypeError, which is a different error, so no
insufficient-margin failure arises past the check. -/
theorem C4_insufficient_margin_iff (s : EngineState) (req : OrderReq) :
    create_order_py s req = Except.error EngineError.insufficient_margin ↔
      s.wallet.available_balance < required_margin_for req := by
  by_cases h : s.wallet.available_balance < required_margin_for req
  · have hc : create_order_py s req =
        Except.error EngineError.insufficient_margin := by
      simp only [create_order_py, if_pos h]
    rw [hc]
    exact ⟨fun _ => h, fun _ => rfl⟩
  · constructor
    · intro hk
      simp only [create_order_py, if_neg h] at hk
      split at hk
      · exact absurd hk (execute_order_py_not_insufficient _ _ _)
      · exact absurd hk (by simp)
    · intro hk
      exact absurd hk h

theorem C4_insufficient_margin_iff_witness :
    create_order_py initial_state req_big =
      Except.error EngineError.insufficient_margin :=
  (C4_insufficient_margin_iff initial_state req_big).mpr
    (by norm_num [initial_state, required_margin_for, req_big, py_price_arg])

/-- C5: the volume-weighted-average arithmetic of `_add_to_position` is
exactly the claim's formula — the new entry price preserves notional value,
quantities sum, margins sum, and on entry 100 at quantity 1 with a fill of
quantity 2 at price 200 the new entry price is exactly 500/3 — but the
function never commits it: the liquidation-price recomputation raises
TypeError before `position.save()`, so a same-direction fill against an
open position aborts and rolls back (first conjunct, at the spec's own
example). -/
theorem C5_vwap :
    execute_order_py c5_add_state c5_ord 200 =
      Except.error EngineError.type_error ∧
    (∀ (pos : Position) (ord : Order) (e : ℚ),
      pos.quantity + ord.quantity ≠ 0 →
      ((add_to_position pos ord e).entry_price * (pos.quantity + ord.quantity) =
          pos.entry_price * pos.quantity + e * ord.quantity ∧
        (add_to_position pos ord e).quantity = pos.quantity + ord.quantity ∧
        (add_to_position pos ord e).margin = pos.margin + ord.margin_used)) ∧
    (add_to_position c5_pos c5_ord 200).entry_price = 500 / 3 := by
  refine ⟨?_, ?_, ?_⟩
  · refine execute_order_py_add_err c5_add_state c5_ord 200 c5_pos ?_
      (Or.inl ⟨rfl, rfl⟩)
    norm_num [c5_add_state, initial_state, c5_pos, c5_ord, List.find?]
  · intro pos ord e hne
    refine ⟨?_, rfl, rfl⟩
    show (pos.entry_price * pos.quantity + e * ord.quantity) /
        (pos.quantity + ord.quantity) * (pos.quantity + ord.quantity) = _
    rw [div_mul_cancel₀ _ hne]
  · norm_num [add_to_position, c5_pos, c5_ord]

theorem C5_vwap_witness :
    (add_to_position c5_pos c5_ord 200).entry_price *
        (c5_pos.quantity + c5_ord.quantity) =
      c5_pos.entry_price * c5_pos.quantity + 200 * c5_ord.quantity ∧
    (add_to_position c5_pos c5_ord 200).quantity =
      c5_pos.quantity + c5_ord.quantity ∧
    (add_to_position c5_pos c5_ord 200).margin =
      c5_pos.margin + c5_ord.margin_used :=
  C5_vwap.2.1 c5_pos c5_ord 200 (by norm_num [c5_pos, c5_ord])

/-- C6: the liquidation-price computation of `services.py` never succeeds:
for every execution price, leverage and side, the Python expression
`execution_price * (1 ± (1 / leverage) * Decimal('0.9'))` raises
(`1 / leverage` is a binary float, and multiplying a float by a `Decimal`
is a `TypeError`; leverage 0 would raise `ZeroDivisionError` first).  Under
the intended exact-arithmetic reading used by the engine model, the value
equals the claim's formula `price * (1 - sign * 0.9 / leverage)` with
sign +1 for long and -1 for short, both on position creation and on
re-derivation after a same-direction addition. -/
theorem C6_liquidation_price :
    (∀ (p : ℚ) (L : ℤ) (b : Bool), liquidation_price_py p L b = none) ∧
    (∀ (ord : Order) (e : ℚ) (pid : ℕ),
      (create_position ord e PosSide.long pid).liquidation_price =
        e * (1 - (9 / 10) / (ord.leverage : ℚ)) ∧
      (create_position ord e PosSide.short pid).liquidation_price =
        e * (1 + (9 / 10) / (ord.leverage : ℚ))) ∧
    (∀ (pos : Position) (ord : Order) (e : ℚ),
      (add_to_position { pos with side := PosSide.long } ord e).liquidation_price =
        (add_to_position { pos with side := PosSide.long } ord e).entry_price *
          (1 - (9 / 10) / (pos.leverage : ℚ)) ∧
      (add_to_position { pos with side := PosSide.short } ord e).liquidation_price =
        (add_to_position { pos with side := PosSide.short } ord e).entry_price *
          (1 + (9 / 10) / (pos.leverage : ℚ))) := by
  refine ⟨?_, ?_, ?_⟩
  · intro p L b
    by_cases hL : L = 0
    · simp [liquidation_price_py, py_div, hL]
    · simp [liquidation_price_py, py_div, py_mul, hL]
  · intro ord e pid
    constructor
    · show e * (1 - 1 / (ord.leverage : ℚ) * (9 / 10)) = _
      ring
    · show e * (1 + 1 / (ord.leverage : ℚ) * (9 / 10)) = _
      ring
  · intro pos ord e
    constructor
    · have hE : (add_to_position { pos with side := PosSide.long } ord
          e).liquidation_price =
          (add_to_position { pos with side := PosSide.long } ord
            e).entry_price * (1 - (1 / (pos.leverage : ℚ)) * (9 / 10)) := rfl
      rw [hE]
      ring
    · have hE : (add_to_position { pos with side := PosSide.short } ord
          e).liquidation_price =
          (add_to_position { pos with side := PosSide.short } ord
            e).entry_price * (1 + (1 / (pos.leverage : ℚ)) * (9 / 10)) := rfl
      rw [hE]
      ring

/-- C7: cancelling an active order releases exactly its reserved margin
back to the available balance (the total balance unchanged), marks it
cancelled, and a second cancel of the same order fails with the
invalid-state error, so margin is never released twice. -/
theorem C7_cancel_idempotent (s s2 : EngineState) (oid : ℕ) (ord : Order)
    (hfind : s.orders.find? (fun o => o.id == oid) = some ord)
    (hact : ord.is_active = true)
    (hok : cancel_order s oid = Except.ok s2) :
    s2.wallet.available_balance =
        s.wallet.available_balance + ord.margin_used ∧
    s2.wallet.balance = s.wallet.balance ∧
    s2.orders.find? (fun o => o.id == oid) =
      some { ord with status := OrderStatus.cancelled } ∧
    cancel_order s2 oid = Except.error EngineError.invalid_state := by
  unfold cancel_order at hok
  simp only [hfind] at hok
  rw [if_pos hact] at hok
  have hs2 := (Except.ok.inj hok).symm
  have hfind2 : s2.orders.find? (fun o => o.id == oid) =
      some { ord with status := OrderStatus.cancelled } := by
    rw [hs2]
    have := find?_map_update (fun o : Order => o.id) s.orders oid
      (fun o => { o with status := OrderStatus.cancelled })
      (fun a ha => ha)
    simp only [this, hfind]
    rfl
  refine ⟨by rw [hs2], by rw [hs2], hfind2, ?_⟩
  unfold cancel_order
  simp only [hfind2]
  rw [if_neg (by simp [cancelled_not_active])]

theorem C7_cancel_idempotent_witness :
    c7_state_2.wallet.available_balance =
        c7_state.wallet.available_balance + c7_order.margin_used ∧
    c7_state_2.wallet.balance = c7_state.wallet.balance ∧
    c7_state_2.orders.find? (fun o => o.id == 0) =
      some { c7_order with status := OrderStatus.cancelled } ∧
    cancel_order c7_state_2 0 = Except.error EngineError.invalid_state :=
  C7_cancel_idempotent c7_state c7_state_2 0 c7_order
    (by norm_num [create_order, required_margin_for, py_price_arg, req_limit,
      initial_state, new_order, reserve_state, c7_state, c7_order, ok_state,
      List.find?])
    (by norm_num [c7_order, Order.is_active])
    (by norm_num [create_order, cancel_order, required_margin_for,
      py_price_arg, req_limit, initial_state, new_order, reserve_state,
      c7_state, c7_state_2, c7_order, ok_state, List.find?, Order.is_active])

/-- C8 counterexample: on the path where no open position exists the claim
asserts a trade with a null position reference is created; in fact the fill
aborts with the liquidation-price TypeError before the trade row is written
(`Trade.objects.create` is at line 124, after the position step), so no
such trade ever exists. -/
theorem C8_counterexample :
    initial_state.positions.find?
        (fun p => p.symbol == c8_ord.symbol && p.is_open) = none ∧
    execute_order_py initial_state c8_ord 100 =
      Except.error EngineError.type_error :=
  ⟨rfl, execute_order_py_create_err initial_state c8_ord 100 rfl⟩

/-- C8 (amended): the trade record a fill writes carries the position
reference looked up before the position step ran; but only the
opposite-side reduce path ever commits such a trade, and there the
reference is the pre-existing position.  On the no-position and
same-direction paths the fill aborts with TypeError before the trade is
written, so the claim's null-reference trade never exists. -/
theorem C8_trade_position_ref :
    (∀ (s : EngineState) (ord : Order) (e : ℚ),
      s.positions.find? (fun p => p.symbol == ord.symbol && p.is_open) = none →
      execute_order_py s ord e = Except.error EngineError.type_error) ∧
    (∀ (s : EngineState) (ord : Order) (e : ℚ) (pos : Position),
      s.positions.find? (fun p => p.symbol == ord.symbol && p.is_open) =
        some pos →
      ((pos.side = PosSide.long ∧ ord.side = Side.buy) ∨
        (pos.side = PosSide.short ∧ ord.side = Side.sell)) →
      execute_order_py s ord e = Except.error EngineError.type_error) ∧
    (∀ (s : EngineState) (ord : Order) (e : ℚ) (pos : Position),
      s.positions.find? (fun p => p.symbol == ord.symbol && p.is_open) =
        some pos →
      ¬ ((pos.side = PosSide.long ∧ ord.side = Side.buy) ∨
        (pos.side = PosSide.short ∧ ord.side = Side.sell)) →
      (execute_order_py s ord e).isOk = true) ∧
    (∀ (s : EngineState) (ord : Order) (e : ℚ) (pos : Position)
        (s2 : EngineState),
      s.positions.find? (fun p => p.symbol == ord.symbol && p.is_open) =
        some pos →
      execute_order_py s ord e = Except.ok s2 →
      (s2.trades = s.trades ++ [fill_trade s ord e] ∧
        (fill_trade s ord e).position_ref = some pos.id)) := by
  refine ⟨?_, ?_, ?_, ?_⟩
  · intro s ord e h
    exact execute_order_py_create_err s ord e h
  · intro s ord e pos h hside
    exact execute_order_py_add_err s ord e pos h hside
  · intro s ord e pos h hside
    exact execute_order_py_reduce_ok s ord e pos h hside
  · intro s ord e pos s2 h hok
    refine ⟨execute_order_py_ok_trades s ord e s2 hok, ?_⟩
    simp [fill_trade, h]

theorem C8_trade_position_ref_witness :
    execute_order_py initial_state c8_ord 100 =
      Except.error EngineError.type_error ∧
    (c8_reduce_state.trades =
        c8_add_state.trades ++ [fill_trade c8_add_state c8_sell_ord 100] ∧
      (fill_trade c8_add_state c8_sell_ord 100).position_ref =
        some c8_pos.id) := by
  constructor
  · exact C8_trade_position_ref.1 initial_state c8_ord 100 rfl
  · refine C8_trade_position_ref.2.2.2 c8_add_state c8_sell_ord 100 c8_pos
      c8_reduce_state ?_ ?_
    · norm_num [c8_add_state, initial_state, c8_pos, c8_sell_ord, List.find?]
    · norm_num [execute_order_py, c8_reduce_state, ok_state, c8_add_state,
        initial_state, c8_pos, c8_sell_ord, filled_order, fill_trade,
        reduce_position, reduce_pnl, TAKER_FEE, List.find?, Except.map] <;>
      simp

/-- C9: closing an open position with an explicit quantity of 0 behaves
exactly like omitting the quantity (and an explicit price of 0 like
omitting the price): it is not rejected and fully closes the position
(`is_open = false`, `quantity = 0`). -/
theorem C9_close_quantity_zero (s : EngineState) (pid : ℕ) (pos : Position)
    (pr : Option ℚ)
    (hfind : s.positions.find? (fun p => p.id == pid) = some pos)
    (hopen : pos.is_open = true) :
    close_position s pid pr (some 0) = close_position s pid pr none ∧
    (∀ q : Option ℚ,
      close_position s pid (some 0) q = close_position s pid none q) ∧
    (close_position s pid pr (some 0)).isOk = true ∧
    (∀ s2, close_position s pid pr (some 0) = Except.ok s2 →
      ∀ p2 ∈ s2.positions, p2.id = pos.id →
        (p2.is_open = false ∧ p2.quantity = 0)) := by
  have hq0 : py_or (some 0) pos.quantity = pos.quantity := by simp [py_or]
  have hqn : py_or none pos.quantity = pos.quantity := rfl
  have hpos_id : pos.id = pid := by simpa using List.find?_some hfind
  refine ⟨?_, ?_, ?_, ?_⟩
  · simp only [close_position, hfind, hq0, hqn]
  · intro q
    simp only [close_position, hfind]
    have : py_or (some 0) (95000 : ℚ) = py_or none 95000 := by simp [py_or]
    rw [this]
  · simp only [close_position, hfind, hq0]
    rw [if_pos hopen, if_neg (lt_irrefl pos.quantity)]
    rfl
  · intro s2 hok p2 hp2 hid2
    simp only [close_position, hfind, hq0] at hok
    rw [if_pos hopen, if_neg (lt_irrefl pos.quantity)] at hok
    have hs2 := (Except.ok.inj hok).symm
    rw [hs2] at hp2
    simp only [close_position_calc, if_pos (le_refl pos.quantity)] at hp2
    have := mem_map_update (fun p : Position => p.id) s.positions pos.id
      _ p2 (by simpa [hpos_id] using hp2) hid2
    rw [this]
    exact ⟨rfl, rfl⟩

theorem C9_close_quantity_zero_witness :
    close_position demo_state_1 0 none (some 0) =
        close_position demo_state_1 0 none none ∧
    (close_position demo_state_1 0 none (some 0)).isOk = true := by
  have hfind : demo_state_1.positions.find? (fun p => p.id == 0) =
      some c9_pos := by
    norm_num [create_order, required_margin_for, py_price_arg, req_demo,
      initial_state, new_order, reserve_state, execute_order, filled_order,
      fill_trade, create_position, TAKER_FEE, demo_state_1, c9_pos, ok_state,
      List.find?]
  have hopen : c9_pos.is_open = true := rfl
  exact ⟨(C9_close_quantity_zero demo_state_1 0 c9_pos none hfind hopen).1,
    (C9_close_quantity_zero demo_state_1 0 c9_pos none hfind hopen).2.2.1⟩

/-- C10: every trade written by an order fill carries `realized_pnl = 0`
(also on the opposite-side reduce path, where the position and wallet do
absorb a nonzero P&L), while the trade written by an explicit close carries
the realized P&L; concretely, after a buy of 1 at 100 and an opposite sell
of 1 at 150 both trades carry 0 while the position's realized P&L is 50. -/
theorem C10_trade_realized_pnl :
    (∀ (s : EngineState) (ord : Order) (e : ℚ),
      ∀ t ∈ (execute_order s ord e).trades,
        t ∈ s.trades ∨ t.realized_pnl = 0) ∧
    (∀ (s s2 : EngineState) (pid : ℕ) (price quantity : Option ℚ)
        (pos : Position),
      s.positions.find? (fun p => p.id == pid) = some pos →
      close_position s pid price quantity = Except.ok s2 →
      ∀ t ∈ s2.trades, t ∈ s.trades ∨
        t.realized_pnl =
          close_pnl pos (py_or price 95000) (py_or quantity pos.quantity)) ∧
    (c10_state.trades.map Trade.realized_pnl = [0, 0] ∧
      c10_state.positions.map Position.realized_pnl = [50]) := by
  refine ⟨?_, ?_, ?_⟩
  · intro s ord e t ht
    rw [execute_order_trades] at ht
    rcases List.mem_append.1 ht with h | h
    · exact Or.inl h
    · right
      have : t = fill_trade s ord e := by simpa using h
      rw [this]
      rfl
  · intro s s2 pid price quantity pos hfind hok t ht
    simp only [close_position, hfind] at hok
    split at hok
    · split at hok
      · exact absurd hok (by simp)
      · have hs2 := (Except.ok.inj hok).symm
        rw [hs2] at ht
        rcases List.mem_append.1 ht with h | h
        · exact Or.inl h
        · right
          rw [List.mem_singleton.1 h]
    · exact absurd hok (by simp)
  · constructor <;>
      norm_num [create_order, required_margin_for, py_price_arg, req_buy100,
        req_sell150, initial_state, new_order, reserve_state, execute_order,
        filled_order, fill_trade, create_position, reduce_position,
        reduce_pnl, TAKER_FEE, c8_state, c10_state, ok_state, List.find?,
        Order.is_active] <;> simp

theorem C10_trade_realized_pnl_witness :
    ((fill_trade c8_state c8_sell_ord 100) ∈ c8_state.trades ∨
      (fill_trade c8_state c8_sell_ord 100).realized_pnl = 0) ∧
    (c10_trade ∈ c8_state.trades ∨
      c10_trade.realized_pnl = close_pnl c8_pos (py_or (some 150) 95000)
        (py_or none c8_pos.quantity)) := by
  constructor
  · refine C10_trade_realized_pnl.1 c8_state c8_sell_ord 100 _ ?_
    rw [execute_order_trades]
    exact List.mem_append_right _ (List.mem_singleton.2 rfl)
  · refine C10_trade_realized_pnl.2.1 c8_state c10_close_state 0 (some 150)
      none c8_pos ?_ ?_ c10_trade ?_
    · norm_num [create_order, required_margin_for, py_price_arg, req_buy100,
        initial_state, new_order, reserve_state, execute_order, filled_order,
        fill_trade, create_position, TAKER_FEE, c8_state, c8_pos, ok_state,
        List.find?]
    · norm_num [create_order, close_position, close_pnl, close_position_calc,
        required_margin_for, py_price_arg, py_or, req_buy100, initial_state,
        new_order, reserve_state, execute_order, filled_order, fill_trade,
        create_position, TAKER_FEE, c8_state, c8_pos, c10_close_state,
        ok_state, List.find?]
    · norm_num [create_order, close_position, close_pnl, close_position_calc,
        required_margin_for, py_price_arg, py_or, req_buy100, initial_state,
        new_order, reserve_state, execute_order, filled_order, fill_trade,
        create_position, TAKER_FEE, c8_state, c8_pos, c10_close_state,
        c10_trade, ok_state, List.find?]

end SorooshX
